import Mathlib

/-!
A shallow embedding of the pubsub subscription runtime
(runtime/pubsub/subscription.go): the outstanding-message tracker, the
manager / shutdown coordinator, the registration-time validation performed
by NewSubscription, the delivery pipeline it installs as the backend
callback, and the retry policy with its backoff schedule.

Go's `int64` counters and `time.Duration` values are embedded as `Int`
(durations in nanoseconds); a Go `panic` or `rootLogger.Fatal` exit is
embedded as `Except GoPanic`; a nil pointer is `Option.none`.
-/

namespace Pubsub

/-- Error codes of the `errs` package; this slice only builds `Internal`. -/
inductive ErrCode where
  | Internal
deriving DecidableEq, Repr

/-- An error built by `errs.B().Code(code).Msg/Msgf(msg)` with an optional
`.Cause(...)` (the cause is kept as its message string). -/
structure Err where
  code : ErrCode
  msg : String
  cause : Option String
deriving DecidableEq, Repr

/-- The process-fatal exits this slice can take: Go runtime panics,
explicit `panic(...)` calls, and `rootLogger.Fatal` (which exits the
process, panic-equivalent for this model). -/
inductive GoPanic where
  | nilPointerDereference
  | activeNegative
  | topicNotCreatedWithNewTopic
  | minRetryDelayNegative
  | maxRetryDelayNegative
  | unknownSubscription (topicName subName : String)
deriving DecidableEq, Repr

/-- Propositional equality of embedded fallible results is decidable, so
concrete runs of the embedded functions can be checked by evaluation. -/
instance {ε α : Type} [DecidableEq ε] [DecidableEq α] :
    DecidableEq (Except ε α) := fun x y =>
  match x, y with
  | .error a, .error b =>
    if h : a = b then .isTrue (by rw [h])
    else .isFalse (fun hc => h (by injection hc))
  | .error _, .ok _ => .isFalse (fun hc => Except.noConfusion hc)
  | .ok _, .error _ => .isFalse (fun hc => Except.noConfusion hc)
  | .ok a, .ok b =>
    if h : a = b then .isTrue (by rw [h])
    else .isFalse (fun hc => h (by injection hc))

/-- outstandingMessageTracker tracks the number of outstanding messages.
`active` is the `int64` counter mutated atomically, `armed` the latched
shutdown flag guarded by `mu`, `done` whether the `done` channel has been
closed, and `closeCount` how many times `close(t.done)` has executed
(`closeOnce` makes a second close a no-op, so it should never exceed 1). -/
structure outstandingMessageTracker where
  active : Int
  armed : Bool
  done : Bool
  closeCount : Nat
deriving DecidableEq, Repr

/-- newOutstandingMessageTracker: zero counter, unarmed, open done channel. -/
def newOutstandingMessageTracker : outstandingMessageTracker :=
  { active := 0, armed := false, done := false, closeCount := 0 }

/-- markDone: `t.closeOnce.Do(func() { close(t.done) })`. -/
def outstandingMessageTracker.markDone (t : outstandingMessageTracker) :
    outstandingMessageTracker :=
  if t.done then t else { t with done := true, closeCount := t.closeCount + 1 }

/-- Inc: `atomic.AddInt64(&t.active, 1)`. -/
def outstandingMessageTracker.Inc (t : outstandingMessageTracker) :
    outstandingMessageTracker :=
  { t with active := t.active + 1 }

/-- Dec: `val := atomic.AddInt64(&t.active, -1)`; panics when `val < 0`
("outstandingMessageTracker: active < 0", embedded as `none`); when `val`
reaches zero and the tracker is armed, fires the completion signal. -/
def outstandingMessageTracker.Dec (t : outstandingMessageTracker) :
    Option outstandingMessageTracker :=
  let val := t.active - 1
  if val < 0 then none
  else
    let t1 := { t with active := val }
    if val = 0 then
      (if t1.armed then some t1.markDone else some t1)
    else some t1

/-- ArmForShutdown: latches `armed := true` under `mu`; if the counter is
already zero, marks the tracker done right away. -/
def outstandingMessageTracker.ArmForShutdown (t : outstandingMessageTracker) :
    outstandingMessageTracker :=
  let t1 := { t with armed := true }
  if t1.active = 0 then t1.markDone else t1

/-- One call into the tracker, for reasoning about interleaved histories.
Each delivery goroutine contributes an `inc` and a `dec`; the shutdown
coordinator contributes an `arm`. -/
inductive TrackerOp where
  | inc
  | dec
  | arm
deriving DecidableEq, Repr

/-- Runs a sequence of tracker calls; `none` when some `Dec` hit the
fatal `active < 0` condition. -/
def runOps : List TrackerOp → outstandingMessageTracker →
    Option outstandingMessageTracker
  | [], t => some t
  | op :: rest, t =>
    match op with
    | .inc => runOps rest t.Inc
    | .dec => (t.Dec).bind (runOps rest)
    | .arm => runOps rest t.ArmForShutdown

/-- The Manager slice relevant to shutdown: the shared-context cancellation
flag and the `outstanding *outstandingMessageTracker` pointer (a nil pointer
is `none`). The config, request tracker, test support, backend managers and
logger are opaque collaborators carrying no state here. -/
structure Manager where
  ctxCancelled : Bool
  outstanding : Option outstandingMessageTracker
deriving DecidableEq, Repr

/-- NewManager: builds the shared context and the Manager struct literal.
The literal in the source sets ctx, cancelCtx, cfg, rt, ts, rootLogger, gcp
and nsq but never the `outstanding` field, which therefore keeps Go's zero
value for a pointer: nil (`none`); `newOutstandingMessageTracker` is never
called anywhere in the source file. -/
def NewManager : Manager :=
  { ctxCancelled := false, outstanding := none }

/-- The two ways the shutdown select can resolve: the tracker's completion
signal fired first (drained), or the caller's `force` context fired first. -/
inductive ShutdownOutcome where
  | drained
  | deadlineHit
deriving DecidableEq, Repr

/-- Manager.Shutdown: cancels the shared context, calls
`mgr.outstanding.ArmForShutdown()`, then selects on the tracker's `Done()`
channel versus `force.Done()`. Calling ArmForShutdown on a nil tracker
pointer dereferences nil (it locks `t.mu`). The select's race with the
concurrent deliveries is abstracted by `deadlineFiresFirst`: when the
tracker is not already drained at arming time, it says which of the two
signals wins the race. -/
def Manager.Shutdown (mgr : Manager) (deadlineFiresFirst : Bool) :
    Except GoPanic (Manager × ShutdownOutcome) :=
  let mgr1 := { mgr with ctxCancelled := true }
  match mgr1.outstanding with
  | none => .error .nilPointerDereference
  | some t =>
    let t1 := t.ArmForShutdown
    let mgr2 := { mgr1 with outstanding := some t1 }
    if t1.done then .ok (mgr2, .drained)
    else if deadlineFiresFirst then .ok (mgr2, .deadlineHit)
    else .ok (mgr2, .drained)

/-- RetryPolicy, with Go `time.Duration` fields as `Int` nanoseconds. -/
structure RetryPolicy where
  MaxRetries : Int
  MinBackoff : Int
  MaxBackoff : Int
deriving DecidableEq, Repr

/-- The slice of SubscriptionConfig consulted at registration time; the
Handler is wired into the delivery pipeline, modelled separately by
`deliveryCallback`. A nil `*RetryPolicy` is `none`. -/
structure SubscriptionConfig where
  RetryPolicy : Option RetryPolicy
deriving DecidableEq, Repr

/-- Modelled from the spec: `utils.WithDefaultValue` lives in
`encore.dev/pubsub/internal/utils`, outside the source slice. The spec says
the registrar "fills in default retry-policy bounds when unset"; Go's unset
value for a duration field is zero, so the helper returns the default
exactly when the supplied value is zero. -/
def WithDefaultValue (v d : Int) : Int :=
  if v = 0 then d else v

/-- The slice of `Topic[T]` and of the process configuration consulted by
NewSubscription and getSubscriptionConfig. The three `…Nil` flags model the
nil-ness of `topic.topicCfg`, `topic.topic` and `topic.mgr`; the two lists
model the key sets of `topicCfg.Subscriptions` and of
`cfg.Static.PubsubTopics[topic].Subscriptions`; `Testing` is
`mgr.cfg.Static.Testing`. -/
structure Topic where
  topicCfgNil : Bool
  topicNil : Bool
  mgrNil : Bool
  EncoreName : String
  Subscriptions : List String
  StaticSubscriptions : List String
  Testing : Bool
deriving DecidableEq, Repr

/-- Topic.getSubscriptionConfig: under test, synthesizes a stand-in
configuration; otherwise looks the name up in the runtime subscription map
and in the static per-topic map, exiting fatally
("unregistered/unknown subscription") when either lookup misses. -/
def Topic.getSubscriptionConfig (t : Topic) (name : String) :
    Except GoPanic Unit :=
  if t.Testing then .ok ()
  else if name ∈ t.Subscriptions then
    (if name ∈ t.StaticSubscriptions then .ok ()
     else .error (.unknownSubscription t.EncoreName name))
  else .error (.unknownSubscription t.EncoreName name)

/-- The registration-time behaviour of NewSubscription: the canonical-topic
check, retry-policy defaulting and validation, and subscription-config
resolution. Returns the normalized RetryPolicy the subscription ends up
with (the observable part of the configuration it passes to
`topic.topic.Subscribe`). -/
def NewSubscription (topic : Topic) (name : String)
    (subscriptionCfg : SubscriptionConfig) : Except GoPanic RetryPolicy :=
  if topic.topicCfgNil || topic.topicNil || topic.mgrNil then
    .error .topicNotCreatedWithNewTopic
  else
    let rp : RetryPolicy :=
      match subscriptionCfg.RetryPolicy with
      | none => { MaxRetries := 100, MinBackoff := 0, MaxBackoff := 0 }
      | some rp => rp
    if rp.MinBackoff < 0 then .error .minRetryDelayNegative
    else if rp.MaxBackoff < 0 then .error .maxRetryDelayNegative
    else
      let rp1 : RetryPolicy :=
        { rp with
          MinBackoff := WithDefaultValue rp.MinBackoff (10 * 1000000000),
          MaxBackoff := WithDefaultValue rp.MaxBackoff (600 * 1000000000) }
      match topic.getSubscriptionConfig name with
      | .error e => .error e
      | .ok _ => .ok rp1

/-- The observable behaviour of one handler invocation: return nil, return
an error, or panic with some payload (rendered to a string by `%s`). -/
inductive HandlerOutcome where
  | ok
  | fail (e : Err)
  | panics (payload : String)
deriving DecidableEq, Repr

/-- panicCatchWrapper: calls the handler with a deferred recover; a panic is
converted to `errs.B().Code(errs.Internal).Msgf("subscriber panicked: %s",
err2).Err()`; a returned error (or nil) passes through unchanged. -/
def panicCatchWrapper {T : Type} (handler : T → HandlerOutcome) (msg : T) :
    Option Err :=
  match handler msg with
  | .ok => none
  | .fail e => some e
  | .panics p =>
    some { code := .Internal, msg := "subscriber panicked: " ++ p, cause := none }

/-- A structured log record emitted by the delivery pipeline. -/
inductive LogEvent where
  | unmarshalFailure (cause msgID : String) (deliveryAttempt : Int)
deriving DecidableEq, Repr

/-- What one invocation of the delivery callback produces: the error value
returned to the backend (`none` = success/ack), the tracker state it leaves
behind, whether `subscriptionCfg.Handler` was actually invoked, and the log
records it emitted. -/
structure DeliveryResult where
  outcome : Option Err
  tracker : outstandingMessageTracker
  handlerInvoked : Bool
  logs : List LogEvent
deriving DecidableEq, Repr

/-- The message callback NewSubscription installs via
`topic.topic.Subscribe`. `tracker` is the state of `mgr.outstanding` when
the delivery starts; `Inc` runs first and `Dec` runs deferred on every exit
path, its fatal `active < 0` condition propagating as a panic. The external
codec call `utils.UnmarshalMessage[T](attrs, data)` is abstracted by its
result `unmarshal`; on decode failure the pipeline logs the message id and
delivery attempt and returns an internal error without invoking the
handler; otherwise the handler runs under panicCatchWrapper. The reqtrack
operation/request and trace-span calls are opaque hooks with no state in
this slice. -/
def deliveryCallback {T : Type} (tracker : outstandingMessageTracker)
    (msgID : String) (deliveryAttempt : Int)
    (unmarshal : Except String T) (handler : T → HandlerOutcome) :
    Except GoPanic DeliveryResult :=
  let t1 := tracker.Inc
  match unmarshal with
  | .error e =>
    let out : Option Err :=
      some { code := .Internal, msg := "failed to unmarshal message", cause := some e }
    match t1.Dec with
    | none => .error .activeNegative
    | some t2 =>
      .ok { outcome := out, tracker := t2, handlerInvoked := false,
            logs := [.unmarshalFailure e msgID deliveryAttempt] }
  | .ok msg =>
    let out := panicCatchWrapper handler msg
    match t1.Dec with
    | none => .error .activeNegative
    | some t2 =>
      .ok { outcome := out, tracker := t2, handlerInvoked := true, logs := [] }

/-- Modelled from the spec: the backoff schedule (the spec's `nextDelay`;
the delay computation lives in `encore.dev/pubsub/internal/utils`, outside
the source slice). Per the spec it is "deterministic doubling with a floor
and ceiling: `delay = clamp(minBackoff * 2^(attempt-1), minBackoff,
maxBackoff)`", with `attempt ≥ 1`. -/
def nextDelay (p : RetryPolicy) (attempt : Nat) : Int :=
  max p.MinBackoff (min (p.MinBackoff * 2 ^ (attempt - 1)) p.MaxBackoff)

/-- Counts how many times a given call appears in a history. -/
def countOps (o : TrackerOp) : List TrackerOp → Nat
  | [] => 0
  | x :: rest => (if x = o then 1 else 0) + countOps o rest

/-- The tracker's invariant across any successful history: the counter is
non-negative, the done channel has been closed at most once, it has been
closed exactly when `done` reads true, and an armed tracker at zero has
fired its completion signal. -/
def goodTracker (t : outstandingMessageTracker) : Prop :=
  0 ≤ t.active ∧ t.closeCount ≤ 1 ∧ (t.done = true ↔ t.closeCount = 1) ∧
    (t.armed = true → t.active = 0 → t.done = true)

theorem goodTracker_new : goodTracker newOutstandingMessageTracker := by
  refine ⟨by decide, by decide, by decide, by decide⟩

theorem markDone_active (t : outstandingMessageTracker) :
    t.markDone.active = t.active := by
  unfold outstandingMessageTracker.markDone
  split <;> rfl

theorem markDone_armed (t : outstandingMessageTracker) :
    t.markDone.armed = t.armed := by
  unfold outstandingMessageTracker.markDone
  split <;> rfl

theorem ArmForShutdown_active (t : outstandingMessageTracker) :
    t.ArmForShutdown.active = t.active := by
  unfold outstandingMessageTracker.ArmForShutdown
  dsimp only
  split
  · exact markDone_active _
  · rfl

theorem ArmForShutdown_armed (t : outstandingMessageTracker) :
    t.ArmForShutdown.armed = true := by
  unfold outstandingMessageTracker.ArmForShutdown
  dsimp only
  split
  · rw [markDone_armed]
  · rfl

theorem Dec_none_of_neg {t : outstandingMessageTracker}
    (h : t.active - 1 < 0) : t.Dec = none := by
  unfold outstandingMessageTracker.Dec
  simp only [h, if_pos]

theorem Dec_active {t t' : outstandingMessageTracker}
    (h : t.Dec = some t') : t'.active = t.active - 1 := by
  unfold outstandingMessageTracker.Dec at h
  dsimp only at h
  split_ifs at h <;> simp only [Option.some.injEq] at h <;> subst h
  · exact markDone_active _
  · rfl
  · rfl

theorem Dec_armed {t t' : outstandingMessageTracker}
    (h : t.Dec = some t') : t'.armed = t.armed := by
  unfold outstandingMessageTracker.Dec at h
  dsimp only at h
  split_ifs at h <;> simp only [Option.some.injEq] at h <;> subst h
  · exact markDone_armed _
  · rfl
  · rfl

theorem markDone_good {t : outstandingMessageTracker}
    (h1 : 0 ≤ t.active) (h2 : t.closeCount ≤ 1)
    (h3 : t.done = true ↔ t.closeCount = 1) :
    goodTracker t.markDone ∧ t.markDone.done = true := by
  unfold outstandingMessageTracker.markDone
  split
  · next hd => exact ⟨⟨h1, h2, h3, fun _ _ => hd⟩, hd⟩
  · next hd =>
    have hc : t.closeCount = 0 := by
      have hne : t.closeCount ≠ 1 := fun he => hd (h3.mpr he)
      omega
    exact ⟨⟨h1, by dsimp; omega, by simp [hc], fun _ _ => rfl⟩, rfl⟩

theorem goodTracker_Inc {t : outstandingMessageTracker}
    (h : goodTracker t) : goodTracker t.Inc := by
  obtain ⟨h1, h2, h3, h4⟩ := h
  refine ⟨by dsimp [outstandingMessageTracker.Inc]; omega, h2, h3, ?_⟩
  intro _ hz
  dsimp [outstandingMessageTracker.Inc] at hz
  omega

theorem goodTracker_Dec {t t' : outstandingMessageTracker}
    (h : goodTracker t) (hd : t.Dec = some t') : goodTracker t' := by
  obtain ⟨h1, h2, h3, h4⟩ := h
  unfold outstandingMessageTracker.Dec at hd
  dsimp only at hd
  split_ifs at hd with hneg hz harm <;>
    simp only [Option.some.injEq] at hd <;> subst hd
  · exact (markDone_good (t := { t with active := t.active - 1 })
      (by dsimp; omega) h2 h3).1
  · exact ⟨by dsimp; omega, h2, h3, fun ha _ => absurd ha (by simpa using harm)⟩
  · exact ⟨by dsimp; omega, h2, h3, fun _ hz' => absurd hz' (by simpa using hz)⟩

theorem goodTracker_ArmForShutdown {t : outstandingMessageTracker}
    (h : goodTracker t) : goodTracker t.ArmForShutdown := by
  obtain ⟨h1, h2, h3, h4⟩ := h
  unfold outstandingMessageTracker.ArmForShutdown
  dsimp only
  split
  · exact (markDone_good (t := { t with armed := true }) h1 h2 h3).1
  · next hz => exact ⟨h1, h2, h3, fun _ hz' => absurd hz' (by simpa using hz)⟩

theorem runOps_good : ∀ {ops : List TrackerOp} {t t' : outstandingMessageTracker},
    goodTracker t → runOps ops t = some t' → goodTracker t'
  | [], _, _, hg, hr => by
    simp only [runOps, Option.some.injEq] at hr
    exact hr ▸ hg
  | op :: rest, t, t', hg, hr => by
    cases op with
    | inc => exact runOps_good (goodTracker_Inc hg) hr
    | dec =>
      simp only [runOps, Option.bind_eq_some] at hr
      obtain ⟨t1, hdec, hrest⟩ := hr
      exact runOps_good (goodTracker_Dec hg hdec) hrest
    | arm => exact runOps_good (goodTracker_ArmForShutdown hg) hr

theorem runOps_active : ∀ {l : List TrackerOp} {t t' : outstandingMessageTracker},
    runOps l t = some t' →
    t'.active = t.active + (countOps .inc l : Int) - (countOps .dec l : Int)
  | [], _, _, hr => by
    simp only [runOps, Option.some.injEq] at hr
    subst hr
    simp [countOps]
  | op :: rest, t, t', hr => by
    cases op with
    | inc =>
      have ih := runOps_active (l := rest) hr
      simp only [outstandingMessageTracker.Inc] at ih
      simp only [countOps, if_pos, reduceIte]
      push_cast
      omega
    | dec =>
      simp only [runOps, Option.bind_eq_some] at hr
      obtain ⟨t1, hdec, hrest⟩ := hr
      have ih := runOps_active (l := rest) hrest
      have ha := Dec_active hdec
      simp only [countOps, reduceIte]
      push_cast
      omega
    | arm =>
      have ih := runOps_active (l := rest) hr
      rw [ArmForShutdown_active] at ih
      simp only [countOps, reduceIte]
      push_cast
      omega

theorem runOps_armed : ∀ {ops : List TrackerOp} {t t' : outstandingMessageTracker},
    t.armed = true → runOps ops t = some t' → t'.armed = true
  | [], _, _, ha, hr => by
    simp only [runOps, Option.some.injEq] at hr
    exact hr ▸ ha
  | op :: rest, t, t', ha, hr => by
    cases op with
    | inc => exact runOps_armed (t := t.Inc) ha hr
    | dec =>
      simp only [runOps, Option.bind_eq_some] at hr
      obtain ⟨t1, hdec, hrest⟩ := hr
      exact runOps_armed ((Dec_armed hdec).trans ha) hrest
    | arm => exact runOps_armed (ArmForShutdown_armed t) hr

theorem runOps_arm_mem : ∀ {ops : List TrackerOp} {t t' : outstandingMessageTracker},
    TrackerOp.arm ∈ ops → runOps ops t = some t' → t'.armed = true
  | [], _, _, hm, _ => absurd hm (List.not_mem_nil _)
  | op :: rest, t, t', hm, hr => by
    cases op with
    | inc =>
      have hm' : TrackerOp.arm ∈ rest := by
        rcases List.mem_cons.mp hm with h | h
        · exact absurd h (by decide)
        · exact h
      exact runOps_arm_mem hm' hr
    | dec =>
      simp only [runOps, Option.bind_eq_some] at hr
      obtain ⟨t1, hdec, hrest⟩ := hr
      have hm' : TrackerOp.arm ∈ rest := by
        rcases List.mem_cons.mp hm with h | h
        · exact absurd h (by decide)
        · exact h
      exact runOps_arm_mem hm' hrest
    | arm => exact runOps_armed (ArmForShutdown_armed t) hr

theorem Inc_Dec_some {t : outstandingMessageTracker} (h : 0 ≤ t.active) :
    ∃ t2, t.Inc.Dec = some t2 ∧ t2.active = t.active := by
  unfold outstandingMessageTracker.Inc outstandingMessageTracker.Dec
  dsimp only
  have hv : t.active + 1 - 1 = t.active := by omega
  rw [hv]
  rw [if_neg (by omega)]
  split
  · split
    · exact ⟨_, rfl, markDone_active _⟩
    · exact ⟨_, rfl, rfl⟩
  · exact ⟨_, rfl, rfl⟩

theorem one_le_two_pow_int (k : Nat) : (1 : Int) ≤ 2 ^ k := by
  have h0 : (0 : Int) < 2 ^ k := pow_pos (by norm_num) k
  omega

theorem nextDelay_lower (p : RetryPolicy) (attempt : Nat) :
    p.MinBackoff ≤ nextDelay p attempt :=
  le_max_left _ _

theorem nextDelay_upper (p : RetryPolicy) (attempt : Nat)
    (hmM : p.MinBackoff ≤ p.MaxBackoff) :
    nextDelay p attempt ≤ p.MaxBackoff :=
  max_le hmM (min_le_right _ _)

theorem nextDelay_of_neg (p : RetryPolicy) (attempt : Nat)
    (hmM : p.MinBackoff ≤ p.MaxBackoff) (hm : p.MinBackoff < 0) :
    nextDelay p attempt = p.MinBackoff := by
  unfold nextDelay
  have hx : p.MinBackoff * 2 ^ (attempt - 1) ≤ p.MinBackoff := by
    calc p.MinBackoff * 2 ^ (attempt - 1) ≤ p.MinBackoff * 1 :=
          mul_le_mul_of_nonpos_left (one_le_two_pow_int _) hm.le
      _ = p.MinBackoff := mul_one _
  rw [min_eq_left (hx.trans hmM), max_eq_left hx]

theorem nextDelay_mono (p : RetryPolicy) (attempt : Nat)
    (hmM : p.MinBackoff ≤ p.MaxBackoff) (ha : 1 ≤ attempt) :
    nextDelay p attempt ≤ nextDelay p (attempt + 1) := by
  rcases le_or_lt 0 p.MinBackoff with hm | hm
  · unfold nextDelay
    have hpow : (2 : Int) ^ (attempt - 1) ≤ 2 ^ (attempt + 1 - 1) :=
      pow_le_pow_right₀ (by norm_num) (by omega)
    exact max_le_max le_rfl
      (min_le_min (mul_le_mul_of_nonneg_left hpow hm) le_rfl)
  · rw [nextDelay_of_neg p attempt hmM hm, nextDelay_of_neg p (attempt + 1) hmM hm]

theorem getSubCfg_error_iff (topic : Topic) (name : String) :
    (∃ e, topic.getSubscriptionConfig name = .error e) ↔
      (topic.Testing = false ∧
        (name ∉ topic.Subscriptions ∨ name ∉ topic.StaticSubscriptions)) := by
  unfold Topic.getSubscriptionConfig
  by_cases ht : topic.Testing = true
  · simp [ht]
  · have ht' : topic.Testing = false := by simpa using ht
    by_cases hs : name ∈ topic.Subscriptions
    · by_cases hst : name ∈ topic.StaticSubscriptions
      · simp [ht', hs, hst]
      · simp [ht', hs, hst]
    · simp [ht', hs]

/-- C1: the claim states that for every manager created by NewManager,
Shutdown cancels the shared context, arms the outstanding-delivery tracker,
and blocks until the drain signal or the deadline signal. On the code as
written this is impossible: the struct literal in NewManager never
initializes the `outstanding` field (`newOutstandingMessageTracker` is
never called), so `mgr.outstanding` is nil and Shutdown dereferences a nil
pointer when it calls ArmForShutdown, for either ordering of the two
signals. -/
theorem NewManager_Shutdown_nil_panics (deadlineFiresFirst : Bool) :
    NewManager.outstanding = none ∧
    Manager.Shutdown NewManager deadlineFiresFirst =
      .error .nilPointerDereference :=
  ⟨rfl, rfl⟩

/-- C2: for every delivery invocation of the installed pipeline, the
callback returns normally (no Go panic escapes to the backend); a handler
panic is converted into an internal-kind error carrying the panic payload,
returned as the delivery outcome; and on every exit path the outstanding
counter is decremented exactly once after the initial increment, so the
tracker's count is unchanged net of the delivery. -/
theorem deliveryCallback_contains_panics {T : Type}
    (tracker : outstandingMessageTracker) (msgID : String)
    (deliveryAttempt : Int) (unmarshal : Except String T)
    (handler : T → HandlerOutcome) (h : 0 ≤ tracker.active) :
    ∃ res, deliveryCallback tracker msgID deliveryAttempt unmarshal handler =
        .ok res ∧
      res.tracker.active = tracker.active ∧
      ∀ msg p, unmarshal = .ok msg → handler msg = .panics p →
        res.outcome = some { code := .Internal, msg := "subscriber panicked: " ++ p, cause := none } := by
  obtain ⟨t2, hdec, hact⟩ := Inc_Dec_some h
  cases unmarshal with
  | error e =>
    refine ⟨{ outcome := some { code := .Internal, msg := "failed to unmarshal message", cause := some e },
              tracker := t2, handlerInvoked := false,
              logs := [.unmarshalFailure e msgID deliveryAttempt] },
            ?_, hact, ?_⟩
    · simp only [deliveryCallback]
      rw [hdec]
    · intro msg p hu
      exact absurd hu (by simp)
  | ok msg =>
    refine ⟨{ outcome := panicCatchWrapper handler msg, tracker := t2,
              handlerInvoked := true, logs := [] }, ?_, hact, ?_⟩
    · simp only [deliveryCallback]
      rw [hdec]
    · intro msg' p hu hp
      injection hu with hmsg
      subst hmsg
      simp [panicCatchWrapper, hp]

/-- Witness for C2 at a concrete delivery: an empty tracker, a payload that
decodes, and a handler that panics with "boom". -/
theorem deliveryCallback_contains_panics_witness :
    0 ≤ newOutstandingMessageTracker.active ∧
    ∃ res, deliveryCallback newOutstandingMessageTracker "msg-1" 1
        (Except.ok ()) (fun _ : Unit => HandlerOutcome.panics "boom") =
        .ok res ∧
      res.tracker.active = newOutstandingMessageTracker.active ∧
      ∀ msg p, (Except.ok () : Except String Unit) = .ok msg →
        HandlerOutcome.panics "boom" = .panics p →
        res.outcome = some { code := .Internal, msg := "subscriber panicked: " ++ p, cause := none } :=
  ⟨by decide, by
    exact deliveryCallback_contains_panics newOutstandingMessageTracker
      "msg-1" 1 (Except.ok ()) (fun _ : Unit => HandlerOutcome.panics "boom")
      (by decide)⟩

/-- C5: for every delivery whose raw payload fails to decode, the pipeline
returns an internal-kind error carrying the decode failure as its cause,
never invokes the user handler, and logs the failure with the message id
and the delivery-attempt number. -/
theorem deliveryCallback_decode_failure {T : Type}
    (tracker : outstandingMessageTracker) (msgID : String)
    (deliveryAttempt : Int) (e : String) (handler : T → HandlerOutcome)
    (h : 0 ≤ tracker.active) :
    ∃ res, deliveryCallback tracker msgID deliveryAttempt
        (Except.error e) handler = .ok res ∧
      res.handlerInvoked = false ∧
      res.outcome = some { code := .Internal, msg := "failed to unmarshal message", cause := some e } ∧
      res.logs = [LogEvent.unmarshalFailure e msgID deliveryAttempt] := by
  obtain ⟨t2, hdec, hact⟩ := Inc_Dec_some h
  refine ⟨{ outcome := some { code := .Internal, msg := "failed to unmarshal message", cause := some e },
            tracker := t2, handlerInvoked := false,
            logs := [.unmarshalFailure e msgID deliveryAttempt] },
          ?_, rfl, rfl, rfl⟩
  simp only [deliveryCallback]
  rw [hdec]

/-- Witness for C5 at a concrete malformed delivery. -/
theorem deliveryCallback_decode_failure_witness :
    0 ≤ newOutstandingMessageTracker.active ∧
    ∃ res, deliveryCallback newOutstandingMessageTracker "msg-2" 3
        (Except.error "bad json") (fun _ : Unit => HandlerOutcome.ok) =
        .ok res ∧
      res.handlerInvoked = false ∧
      res.outcome = some { code := .Internal, msg := "failed to unmarshal message", cause := some "bad json" } ∧
      res.logs = [LogEvent.unmarshalFailure "bad json" "msg-2" 3] :=
  ⟨by decide, deliveryCallback_decode_failure newOutstandingMessageTracker
    "msg-2" 3 "bad json" (fun _ : Unit => HandlerOutcome.ok) (by decide)⟩

/-- C6: a Dec whose result would be negative aborts fatally rather than
silently underflowing, and across any successful history starting from a
fresh tracker the counter never goes negative. -/
theorem Dec_underflow_fatal :
    (∀ t : outstandingMessageTracker, t.active - 1 < 0 → t.Dec = none) ∧
    (∀ (ops : List TrackerOp) (t' : outstandingMessageTracker),
      runOps ops newOutstandingMessageTracker = some t' → 0 ≤ t'.active) :=
  ⟨fun _ h => Dec_none_of_neg h,
   fun _ _ hr => (runOps_good goodTracker_new hr).1⟩

/-- Witness for C6: Dec on a fresh tracker (no matching Inc) is fatal, and
the history [inc] leaves a non-negative counter. -/
theorem Dec_underflow_fatal_witness :
    newOutstandingMessageTracker.Dec = none ∧
    0 ≤ (outstandingMessageTracker.mk 1 false false 0).active :=
  ⟨Dec_underflow_fatal.1 newOutstandingMessageTracker (by decide),
   Dec_underflow_fatal.2 [TrackerOp.inc] (outstandingMessageTracker.mk 1 false false 0)
     (by decide)⟩

/-- C7: arming for shutdown while the counter is already zero fires the
one-shot completion signal immediately (the done channel is closed, and
when it was still open the close actually happens during this very call),
with no further decrement required. -/
theorem ArmForShutdown_at_zero_fires (t : outstandingMessageTracker)
    (h : t.active = 0) :
    t.ArmForShutdown.done = true ∧
    (t.done = false → t.ArmForShutdown.closeCount = t.closeCount + 1) := by
  unfold outstandingMessageTracker.ArmForShutdown
  dsimp only
  rw [if_pos (by simpa using h)]
  unfold outstandingMessageTracker.markDone
  by_cases hd : t.done = true
  · rw [if_pos (by simpa using hd)]
    exact ⟨hd, fun hf => absurd hd (by simp [hf])⟩
  · rw [if_neg (by simpa using hd)]
    exact ⟨rfl, fun _ => rfl⟩

/-- Witness for C7 at a fresh tracker. -/
theorem ArmForShutdown_at_zero_fires_witness :
    newOutstandingMessageTracker.ArmForShutdown.done = true ∧
    (newOutstandingMessageTracker.done = false →
      newOutstandingMessageTracker.ArmForShutdown.closeCount =
        newOutstandingMessageTracker.closeCount + 1) :=
  ArmForShutdown_at_zero_fires newOutstandingMessageTracker rfl

/-- C8: every balanced interleaved history of Inc/Dec calls (equal counts,
with ArmForShutdown calls possibly interspersed) that does not abort
returns the counter to zero, and when an arm occurred during the sequence
the completion signal has fired exactly once (the done channel was closed
exactly one time). -/
theorem balanced_history_drains (ops : List TrackerOp)
    (t' : outstandingMessageTracker)
    (hbal : countOps .dec ops = countOps .inc ops)
    (hrun : runOps ops newOutstandingMessageTracker = some t') :
    t'.active = 0 ∧ (TrackerOp.arm ∈ ops → t'.closeCount = 1) := by
  have hact := runOps_active hrun
  have hz : t'.active = 0 := by
    rw [hact]
    show newOutstandingMessageTracker.active +
      (countOps .inc ops : Int) - (countOps .dec ops : Int) = 0
    rw [hbal]
    show (0 : Int) + _ - _ = 0
    omega
  refine ⟨hz, fun hmem => ?_⟩
  have hgood := runOps_good goodTracker_new hrun
  have harm := runOps_arm_mem hmem hrun
  exact hgood.2.2.1.mp (hgood.2.2.2 harm hz)

/-- Witness for C8 with the balanced armed history [inc, arm, dec]. -/
theorem balanced_history_drains_witness :
    countOps .dec [TrackerOp.inc, TrackerOp.arm, TrackerOp.dec] =
      countOps .inc [TrackerOp.inc, TrackerOp.arm, TrackerOp.dec] ∧
    ((outstandingMessageTracker.mk 0 true true 1).active = 0 ∧
      (TrackerOp.arm ∈ [TrackerOp.inc, TrackerOp.arm, TrackerOp.dec] →
        (outstandingMessageTracker.mk 0 true true 1).closeCount = 1)) :=
  ⟨by decide, balanced_history_drains
    [TrackerOp.inc, TrackerOp.arm, TrackerOp.dec]
    (outstandingMessageTracker.mk 0 true true 1) (by decide) (by decide)⟩

/-- C10: ArmForShutdown is idempotent and the completion signal is
one-shot: across every successful history from a fresh tracker the done
channel is closed at most once, and arming an already-done tracker neither
aborts (it returns a tracker) nor re-fires the signal (the close count is
unchanged while done stays true). -/
theorem ArmForShutdown_idempotent_oneshot :
    (∀ t : outstandingMessageTracker,
      t.ArmForShutdown.ArmForShutdown = t.ArmForShutdown) ∧
    (∀ (ops : List TrackerOp) (t' : outstandingMessageTracker),
      runOps ops newOutstandingMessageTracker = some t' → t'.closeCount ≤ 1) ∧
    (∀ t : outstandingMessageTracker, t.done = true →
      t.ArmForShutdown.done = true ∧
      t.ArmForShutdown.closeCount = t.closeCount) := by
  refine ⟨?_, fun _ _ hr => (runOps_good goodTracker_new hr).2.1, ?_⟩
  · intro t
    obtain ⟨a, ar, d, c⟩ := t
    unfold outstandingMessageTracker.ArmForShutdown
      outstandingMessageTracker.markDone
    by_cases ha : a = 0 <;> by_cases hd : d = true <;> simp [ha, hd]
  · intro t hd
    obtain ⟨a, ar, d, c⟩ := t
    subst hd
    unfold outstandingMessageTracker.ArmForShutdown
      outstandingMessageTracker.markDone
    by_cases ha : a = 0 <;> simp [ha]

/-- Witness for C10: arming a tracker whose signal has already fired. -/
theorem ArmForShutdown_idempotent_oneshot_witness :
    (outstandingMessageTracker.mk 0 true true 1).ArmForShutdown.done = true ∧
    (outstandingMessageTracker.mk 0 true true 1).ArmForShutdown.closeCount = 1 :=
  ArmForShutdown_idempotent_oneshot.2.2 (outstandingMessageTracker.mk 0 true true 1) rfl

/-- C4: the backoff schedule follows the clamp formula, never leaves
[minBackoff, maxBackoff], is non-decreasing in the attempt number, and is
constant once it reaches maxBackoff. -/
theorem nextDelay_clamped_monotone (p : RetryPolicy) (attempt : Nat)
    (hmM : p.MinBackoff ≤ p.MaxBackoff) (ha : 1 ≤ attempt) :
    nextDelay p attempt =
      max p.MinBackoff (min (p.MinBackoff * 2 ^ (attempt - 1)) p.MaxBackoff) ∧
    p.MinBackoff ≤ nextDelay p attempt ∧
    nextDelay p attempt ≤ p.MaxBackoff ∧
    nextDelay p attempt ≤ nextDelay p (attempt + 1) ∧
    (nextDelay p attempt = p.MaxBackoff →
      nextDelay p (attempt + 1) = p.MaxBackoff) :=
  ⟨rfl, nextDelay_lower p attempt, nextDelay_upper p attempt hmM,
   nextDelay_mono p attempt hmM ha,
   fun h => le_antisymm (nextDelay_upper p (attempt + 1) hmM)
     ((le_of_eq h.symm).trans (nextDelay_mono p attempt hmM ha))⟩

/-- Witness for C4 at the policy minBackoff = 1, maxBackoff = 8, attempt 2. -/
theorem nextDelay_clamped_monotone_witness :
    nextDelay ⟨100, 1, 8⟩ 2 = max 1 (min (1 * 2 ^ (2 - 1)) 8) ∧
    (1 : Int) ≤ nextDelay ⟨100, 1, 8⟩ 2 ∧
    nextDelay ⟨100, 1, 8⟩ 2 ≤ 8 ∧
    nextDelay ⟨100, 1, 8⟩ 2 ≤ nextDelay ⟨100, 1, 8⟩ 3 ∧
    (nextDelay ⟨100, 1, 8⟩ 2 = 8 → nextDelay ⟨100, 1, 8⟩ 3 = 8) :=
  nextDelay_clamped_monotone ⟨100, 1, 8⟩ 2 (by decide) (by decide)

/-- C3 counterexample: a subscription registered with a supplied retry
policy whose fields are all left unset (the zero value) ends up with
maxRetries 0, not 100 — only a nil retry policy receives the maxRetries
default, while the backoff bounds are defaulted from the zero value. -/
theorem NewSubscription_zero_policy_keeps_maxRetries :
    NewSubscription
        { topicCfgNil := false, topicNil := false, mgrNil := false, EncoreName := "topic", Subscriptions := [], StaticSubscriptions := [], Testing := true }
        "sub"
        { RetryPolicy := some { MaxRetries := 0, MinBackoff := 0, MaxBackoff := 0 } } =
      .ok { MaxRetries := 0, MinBackoff := 10000000000, MaxBackoff := 600000000000 } ∧
    ({ MaxRetries := 0, MinBackoff := 10000000000, MaxBackoff := 600000000000 : RetryPolicy }).MaxRetries ≠ 100 :=
  ⟨by decide, by decide⟩

/-- C3 (amended): when no retry policy is supplied (nil), the resulting
policy is exactly maxRetries = 100, minBackoff = 10s, maxBackoff = 10min;
when a policy value is supplied with its backoff fields unset, the two
backoff bounds are defaulted the same way but maxRetries keeps the
supplied value. -/
theorem NewSubscription_default_policy (topic : Topic) (name : String)
    (h1 : topic.topicCfgNil = false) (h2 : topic.topicNil = false)
    (h3 : topic.mgrNil = false)
    (h4 : topic.getSubscriptionConfig name = .ok ()) :
    NewSubscription topic name { RetryPolicy := none } =
      .ok { MaxRetries := 100, MinBackoff := 10000000000, MaxBackoff := 600000000000 } ∧
    ∀ k : Int, NewSubscription topic name
        { RetryPolicy := some { MaxRetries := k, MinBackoff := 0, MaxBackoff := 0 } } =
      .ok { MaxRetries := k, MinBackoff := 10000000000, MaxBackoff := 600000000000 } := by
  constructor
  · simp [NewSubscription, h1, h2, h3, h4, WithDefaultValue]
  · intro k
    simp [NewSubscription, h1, h2, h3, h4, WithDefaultValue]

/-- Witness for C3's amended claim at a concrete topic in test mode. -/
theorem NewSubscription_default_policy_witness :
    Topic.getSubscriptionConfig
        { topicCfgNil := false, topicNil := false, mgrNil := false, EncoreName := "topic", Subscriptions := [], StaticSubscriptions := [], Testing := true } "sub" = .ok () ∧
    NewSubscription
        { topicCfgNil := false, topicNil := false, mgrNil := false, EncoreName := "topic", Subscriptions := [], StaticSubscriptions := [], Testing := true }
        "sub" { RetryPolicy := none } =
      .ok { MaxRetries := 100, MinBackoff := 10000000000, MaxBackoff := 600000000000 } :=
  ⟨by decide, (NewSubscription_default_policy _ "sub" rfl rfl rfl (by decide)).1⟩

/-- C9: registration fails fatally exactly when the topic was not built by
the canonical topic constructor, a supplied backoff bound is negative, or,
outside test mode, the subscription name is missing from the process-wide
configuration (either the runtime subscription map or the static per-topic
map). -/
theorem NewSubscription_fatal_iff (topic : Topic) (name : String)
    (subscriptionCfg : SubscriptionConfig) :
    (∃ e, NewSubscription topic name subscriptionCfg = .error e) ↔
      ((topic.topicCfgNil = true ∨ topic.topicNil = true ∨ topic.mgrNil = true) ∨
       (∃ rp, subscriptionCfg.RetryPolicy = some rp ∧
         (rp.MinBackoff < 0 ∨ rp.MaxBackoff < 0)) ∨
       (topic.Testing = false ∧
         (name ∉ topic.Subscriptions ∨ name ∉ topic.StaticSubscriptions))) := by
  obtain ⟨rpOpt⟩ := subscriptionCfg
  by_cases h1 : topic.topicCfgNil = true
  · constructor
    · intro _
      exact Or.inl (Or.inl h1)
    · intro _
      exact ⟨.topicNotCreatedWithNewTopic, by simp [NewSubscription, h1]⟩
  · by_cases h2 : topic.topicNil = true
    · constructor
      · intro _
        exact Or.inl (Or.inr (Or.inl h2))
      · intro _
        exact ⟨.topicNotCreatedWithNewTopic, by simp [NewSubscription, h2]⟩
    · by_cases h3 : topic.mgrNil = true
      · constructor
        · intro _
          exact Or.inl (Or.inr (Or.inr h3))
        · intro _
          exact ⟨.topicNotCreatedWithNewTopic, by simp [NewSubscription, h3]⟩
      · have hf1 : topic.topicCfgNil = false := by simpa using h1
        have hf2 : topic.topicNil = false := by simpa using h2
        have hf3 : topic.mgrNil = false := by simpa using h3
        have hnoflag : ¬(topic.topicCfgNil = true ∨ topic.topicNil = true ∨
            topic.mgrNil = true) := by
          simp [hf1, hf2, hf3]
        cases rpOpt with
        | none =>
          constructor
          · rintro ⟨e, he⟩
            cases hc : topic.getSubscriptionConfig name with
            | ok u =>
              exfalso
              cases u
              simp [NewSubscription, hf1, hf2, hf3, hc] at he
            | error e' =>
              exact Or.inr (Or.inr (getSubCfg_error_iff topic name |>.mp ⟨e', hc⟩))
          · intro hrhs
            rcases hrhs with hfl | ⟨rp, hrp, _⟩ | hcond
            · exact absurd hfl hnoflag
            · cases hrp
            · obtain ⟨e', hc⟩ := (getSubCfg_error_iff topic name).mpr hcond
              exact ⟨e', by simp [NewSubscription, hf1, hf2, hf3, hc]⟩
        | some rp =>
          by_cases hmin : rp.MinBackoff < 0
          · constructor
            · intro _
              exact Or.inr (Or.inl ⟨rp, rfl, Or.inl hmin⟩)
            · intro _
              exact ⟨.minRetryDelayNegative,
                by simp [NewSubscription, hf1, hf2, hf3, hmin]⟩
          · by_cases hmax : rp.MaxBackoff < 0
            · constructor
              · intro _
                exact Or.inr (Or.inl ⟨rp, rfl, Or.inr hmax⟩)
              · intro _
                exact ⟨.maxRetryDelayNegative,
                  by simp [NewSubscription, hf1, hf2, hf3, hmin, hmax]⟩
            · constructor
              · rintro ⟨e, he⟩
                cases hc : topic.getSubscriptionConfig name with
                | ok u =>
                  exfalso
                  cases u
                  simp [NewSubscription, hf1, hf2, hf3, hmin, hmax, hc] at he
                | error e' =>
                  exact Or.inr (Or.inr (getSubCfg_error_iff topic name |>.mp ⟨e', hc⟩))
              · intro hrhs
                rcases hrhs with hfl | ⟨rp', hrp', hneg⟩ | hcond
                · exact absurd hfl hnoflag
                · injection hrp' with hrp''
                  subst hrp''
                  rcases hneg with hn | hn
                  · exact absurd hn hmin
                  · exact absurd hn hmax
                · obtain ⟨e', hc⟩ := (getSubCfg_error_iff topic name).mpr hcond
                  exact ⟨e', by simp [NewSubscription, hf1, hf2, hf3, hmin, hmax, hc]⟩

/-- Witness for C9 at a concrete topic that skipped the canonical
constructor: the characterization instantiates to a true biconditional. -/
theorem NewSubscription_fatal_iff_witness :
    (∃ e, NewSubscription
        { topicCfgNil := true, topicNil := false, mgrNil := false, EncoreName := "topic", Subscriptions := [], StaticSubscriptions := [], Testing := true }
        "sub" { RetryPolicy := none } = .error e) ↔
      ((true = true ∨ false = true ∨ false = true) ∨
       (∃ rp, (none : Option RetryPolicy) = some rp ∧
         (rp.MinBackoff < 0 ∨ rp.MaxBackoff < 0)) ∨
       (true = false ∧ ("sub" ∉ ([] : List String) ∨ "sub" ∉ ([] : List String)))) :=
  NewSubscription_fatal_iff
    { topicCfgNil := true, topicNil := false, mgrNil := false, EncoreName := "topic", Subscriptions := [], StaticSubscriptions := [], Testing := true }
    "sub" { RetryPolicy := none }

end Pubsub
